import Mathlib

/-!
Verification development for `scripts/pi_recorder.py` (Raspberry Pi audio
recorder and S3 uploader).

The script is embedded shallowly: pure computations become Lean functions,
calls into the environment (clock reads, the audio library, the filesystem,
the network) become explicit parameters, and exceptions raised by library
calls become Boolean success flags or `Option` results, threaded in the order
the source performs the calls.  Machine integers are modelled as `Int`
(Python integers are unbounded, so no wraparound is needed); the one float
expression in the source, `sample_rate / chunk_size * duration`, is modelled
by exact integer arithmetic with truncation toward zero, which is its exact
rational value under `int(...)`.
-/

set_option autoImplicit false

/-! ### Constants from the top of the script -/

/-- Source constant `RECORDING_HOURS = (0, 23)`.  The functions below take the
pair as a parameter because the claims probe other windows such as `(9, 18)`;
this constant records the deployed value. -/
def RECORDING_HOURS : Int × Int := (0, 23)

/-- Source constant `RECORDING_DURATION = 60` (seconds per session). -/
def RECORDING_DURATION : Int := 60

/-- Source constant `DEFAULT_SAMPLE_RATE = 44100`. -/
def DEFAULT_SAMPLE_RATE : Int := 44100

/-- Source constant `DEFAULT_CHANNELS = 1`. -/
def DEFAULT_CHANNELS : Int := 1

/-- Source constant `DEFAULT_CHUNK_SIZE = 2048`. -/
def DEFAULT_CHUNK_SIZE : Int := 2048

/-- Value of `p.get_sample_size(pyaudio.paInt16)`: 2 bytes per sample for the
fixed 16-bit capture format `FORMAT = pyaudio.paInt16`. -/
def FORMAT_SAMPLE_SIZE : Int := 2

/-! ### Model of Python `datetime.time` and its ordering

`datetime.now().time()` yields hour, minute, second, microsecond; comparison
of `datetime.time` values is lexicographic on these fields. -/

structure PyTime where
  hour : Nat
  minute : Nat
  second : Nat
  microsecond : Nat
deriving DecidableEq, Repr

/-- Lexicographic order on `datetime.time` values, as a Boolean, modelling the
Python comparison `t1 <= t2`. -/
def timeLe (a b : PyTime) : Bool :=
  decide (a.hour < b.hour ∨ (a.hour = b.hour ∧
    (a.minute < b.minute ∨ (a.minute = b.minute ∧
      (a.second < b.second ∨ (a.second = b.second ∧
        a.microsecond ≤ b.microsecond))))))

/-- Model of `datetime.datetime` values (one clock reading). -/
structure PyDateTime where
  year : Nat
  month : Nat
  day : Nat
  hour : Nat
  minute : Nat
  second : Nat
  microsecond : Nat
deriving DecidableEq, Repr

/-- Decimal digit character for `n < 10`. -/
def natDigit (n : Nat) : Char := Char.ofNat (48 + n)

/-- Zero-padded two-digit decimal rendering of a field value below 100. -/
def pad2 (n : Nat) : String := ⟨[natDigit (n / 10 % 10), natDigit (n % 10)]⟩

/-- Zero-padded four-digit decimal rendering of a year below 10000. -/
def pad4 (n : Nat) : String :=
  ⟨[natDigit (n / 1000 % 10), natDigit (n / 100 % 10),
    natDigit (n / 10 % 10), natDigit (n % 10)]⟩

/-- Zero-padded six-digit decimal rendering of a microsecond field. -/
def pad6 (n : Nat) : String :=
  ⟨[natDigit (n / 100000 % 10), natDigit (n / 10000 % 10),
    natDigit (n / 1000 % 10), natDigit (n / 100 % 10),
    natDigit (n / 10 % 10), natDigit (n % 10)]⟩

/-- Model of `datetime.isoformat()`: `YYYY-MM-DDTHH:MM:SS`, with a
`.ffffff` microsecond suffix exactly when the microsecond field is nonzero. -/
def pyIsoformat (d : PyDateTime) : String :=
  pad4 d.year ++ "-" ++ pad2 d.month ++ "-" ++ pad2 d.day ++ "T" ++
    pad2 d.hour ++ ":" ++ pad2 d.minute ++ ":" ++ pad2 d.second ++
    (if d.microsecond = 0 then "" else "." ++ pad6 d.microsecond)

/-- Model of `datetime.strftime("%Y%m%d_%H%M%S")`. -/
def strftimeYmdHMS (d : PyDateTime) : String :=
  pad4 d.year ++ pad2 d.month ++ pad2 d.day ++ "_" ++
    pad2 d.hour ++ pad2 d.minute ++ pad2 d.second

/-! ### Model of the Python string operations used by the script

`str.strip()` is modelled by dropping whitespace characters from both ends,
`str.isdigit()` by an all-digits test, and the builtin `int(...)` on strings
by an optional sign followed by a nonempty digit run, after stripping
whitespace. -/

/-- Model of `str.strip()`: remove leading and trailing whitespace. -/
def pyStrip (s : String) : String :=
  ⟨List.reverse (List.dropWhile Char.isWhitespace
    (List.reverse (List.dropWhile Char.isWhitespace s.data)))⟩

/-- Model of `str.isdigit()`: nonempty and every character a decimal digit. -/
def pyIsdigit (s : String) : Bool :=
  !s.data.isEmpty && s.data.all Char.isDigit

/-- Value of a list of decimal digit characters. -/
def digitsToNat (l : List Char) : Nat :=
  l.foldl (fun a c => a * 10 + (c.toNat - 48)) 0

/-- Model of the Python builtin `int(...)` applied to a string: surrounding
whitespace is ignored, then an optional sign followed by a nonempty run of
decimal digits parses; anything else raises `ValueError`, modelled as
`none`. -/
def pyInt (s : String) : Option Int :=
  match (pyStrip s).data with
  | [] => none
  | '+' :: rest =>
      if !rest.isEmpty && rest.all Char.isDigit then some (digitsToNat rest) else none
  | '-' :: rest =>
      if !rest.isEmpty && rest.all Char.isDigit then some (-(digitsToNat rest : Int)) else none
  | c :: rest =>
      if (c :: rest).all Char.isDigit then some (digitsToNat (c :: rest)) else none

/-! ### `Config` and `get_config` -/

/-- The `Config` TypedDict of the script.  The last field is named
`S3_OBJECT_KEY_PREFIX` in the source. -/
structure Config where
  AWS_ACCESS_KEY_ID : String
  AWS_SECRET_ACCESS_KEY : String
  S3_BUCKET_NAME : String
  S3_OBJECT_KEY_PREF : String
deriving DecidableEq, Repr

/-- How the process leaves `get_config`. -/
inductive ConfigOutcome where
  /-- All four variables were set; the loaded record is returned. -/
  | ok (c : Config)
  /-- `value` was `None` for this variable, so the debug line
  `print("Value: " + env_var + value)` raised `TypeError` (str + NoneType);
  the exception is uncaught, so the interpreter terminates with a traceback
  and a non-zero exit status, without writing any `log_message` line. -/
  | typeErrorCrash (envVar : String)
  /-- The intended path `log_message(...not set! Exiting...); sys.exit(1)`.
  Unreachable in the source: the `if value is None` test sits after the
  debug print, which has already raised whenever `value` is `None`. -/
  | loggedExit (envVar : String)
deriving DecidableEq, Repr

/-- Shallow embedding of `get_config`.  The environment is a partial map from
variable names to values (`none` models an unset variable, as returned by
`os.environ.get(env_var, None)`).  The loop over the four keys is unrolled in
source order.  In every iteration the debug print runs before the `None`
check, so a missing variable yields `typeErrorCrash`, never `loggedExit`. -/
def get_config (env : String → Option String) : ConfigOutcome :=
  match env "AWS_ACCESS_KEY_ID" with
  | none => .typeErrorCrash "AWS_ACCESS_KEY_ID"
  | some a =>
    match env "AWS_SECRET_ACCESS_KEY" with
    | none => .typeErrorCrash "AWS_SECRET_ACCESS_KEY"
    | some b =>
      match env "S3_BUCKET_NAME" with
      | none => .typeErrorCrash "S3_BUCKET_NAME"
      | some c =>
        match env "S3_OBJECT_KEY_PREFIX" with
        | none => .typeErrorCrash "S3_OBJECT_KEY_PREFIX"
        | some d => .ok ⟨a, b, c, d⟩

/-! ### `is_recording_time` -/

/-- Shallow embedding of `is_recording_time`.  The source reads the module
constant `RECORDING_HOURS`; it is passed here as the parameter
`recording_hours` so the deployed value and the window probed by the spec can
both be examined.  `now` is the value of `datetime.now().time()`. -/
def is_recording_time (recording_hours : Int × Int) (now : PyTime) : Bool :=
  let start_hour := min (max recording_hours.1 0) 23
  let end_hour := min (max recording_hours.2 0) 23
  let start_time : PyTime := ⟨start_hour.toNat, 0, 0, 0⟩
  let end_time : PyTime := ⟨end_hour.toNat, 0, 0, 0⟩
  timeLe start_time now && timeLe now end_time

/-! ### `_int_from_env`, `resolve_input_device_index`, `get_audio_settings` -/

/-- Shallow embedding of `_int_from_env`.  `value` is `os.getenv(name, "")`
(an unset variable is the empty string).  The source returns
`int(value) if value else default` inside a `try`, so an empty string or an
unparseable string yields the default. -/
def _int_from_env (value : String) (dflt : Int) : Int :=
  if value.data.isEmpty then dflt
  else match pyInt value with
    | some n => n
    | none => dflt

/-- State of the PyAudio library as observed by device resolution. -/
structure PyAudioDevice where
  /-- `p.get_default_input_device_info()["index"]`; `none` models the call
  raising (no default input device can be identified). -/
  defaultInput : Option Int
  /-- Whether the body of the `try` around `p.get_device_info_by_index`
  completes without raising. -/
  infoOk : Bool
  /-- `int(dev_info.get("defaultSampleRate", DEFAULT_SAMPLE_RATE))`; `none`
  models the key being absent from the device info dict. -/
  reportedRate : Option Int
deriving DecidableEq, Repr

/-- Shallow embedding of `resolve_input_device_index`: the index of the
default input device, or `None` when the lookup raises. -/
def resolve_input_device_index (dev : PyAudioDevice) : Option Int :=
  dev.defaultInput

/-- Audio environment variables as read by `get_audio_settings`:
`os.getenv(name, "")` for each of the three override knobs. -/
structure Env where
  AUDIO_SAMPLE_RATE : String
  AUDIO_CHANNELS : String
  AUDIO_CHUNK_SIZE : String
deriving DecidableEq, Repr

/-- Shallow embedding of `get_audio_settings`: returns
`(sample_rate, channels, chunk_size, device_index)`.  The sample-rate
override is honored only when the stripped string `isdigit()`; otherwise the
device default rate is used when a default input device was identified and
its info fetch succeeds, and the hardcoded default otherwise.  Channels and
chunk size go through `_int_from_env`. -/
def get_audio_settings (env : Env) (dev : PyAudioDevice) :
    Int × Int × Int × Option Int :=
  let device_index := resolve_input_device_index dev
  let sr_env := pyStrip env.AUDIO_SAMPLE_RATE
  let sample_rate : Int :=
    if pyIsdigit sr_env then (digitsToNat sr_env.data : Int)
    else
      match device_index with
      | some _ =>
          if dev.infoOk then dev.reportedRate.getD DEFAULT_SAMPLE_RATE
          else DEFAULT_SAMPLE_RATE
      | none => DEFAULT_SAMPLE_RATE
  let channels := _int_from_env env.AUDIO_CHANNELS DEFAULT_CHANNELS
  let chunk_size := _int_from_env env.AUDIO_CHUNK_SIZE DEFAULT_CHUNK_SIZE
  (sample_rate, channels, chunk_size, device_index)

/-! ### `record_audio`

The function interacts with the filesystem, the audio library and the wave
encoder.  Each fallible call is modelled by a Boolean flag telling whether it
completes without raising, threaded in the order the source performs the
calls; the per-chunk `stream.read` results are a function from the iteration
index to `some data` (read succeeded) or `none` (the read raised and the
handler logged and continued).  The result records the success flag of the
source together with resource bookkeeping and the written container. -/

/-- One chunk: the byte block returned by `stream.read`. -/
abbrev Chunk := List Nat

/-- The WAV container written by `wave.open(...) / wf.set... / writeframes`:
header fields and the ordered frame data (`writeframes` receives the
concatenation of the listed chunks). -/
structure WavFile where
  nchannels : Int
  sampwidth : Int
  framerate : Int
  frames : List Chunk
deriving DecidableEq, Repr

/-- What a run of `record_audio` did. -/
structure RecordResult where
  /-- The Boolean the function returns (`False` when the outer `except`
  caught an exception). -/
  success : Bool
  /-- The container written to the temp-recordings directory, when the
  function got that far. -/
  written : Option WavFile
  /-- Whether `p.open` returned a stream. -/
  streamOpened : Bool
  /-- Whether `stream.close()` ran. -/
  streamClosed : Bool
  /-- Whether `p.terminate()` ran. -/
  deviceTerminated : Bool
deriving DecidableEq, Repr

/-- The capture loop: `frames = []`, then for each iteration index append the
read chunk or, when the read raised, log and continue. -/
def captureChunks (reads : Nat → Option Chunk) (total : Nat) : List Chunk :=
  (List.range total).foldl
    (fun acc i =>
      match reads i with
      | some data => acc ++ [data]
      | none => acc)
    []

/-- Shallow embedding of `record_audio`.  Flags, in source order:
`makedirsOk` for `os.makedirs`, `openOk` for `p.open`, `startLogOk` for the
`log_message("Starting recording ...")` call after the stream is open (its
file append can raise), `stopOk`/`closeOk`/`terminateOk` for the teardown
calls, `encodeOk` for the `wave.open` block.  `chunk_size = 0` raises
`ZeroDivisionError` in `int(sample_rate / chunk_size * duration)`; a
negative product gives a negative count and `range` then runs zero
iterations; both follow the source, and `Int.tdiv` is truncation toward
zero exactly as `int(...)` truncates the exact quotient.  No exception
handler other than the per-read one exists inside the `try`, so any raise
after `p.open` reaches the outer `except`, which logs and returns `False`
without running the teardown calls. -/
def record_audio (duration : Int) (sample_rate channels chunk_size : Int)
    (device_index : Option Int)
    (makedirsOk openOk startLogOk stopOk closeOk terminateOk encodeOk : Bool)
    (reads : Nat → Option Chunk) : RecordResult :=
  if makedirsOk = false then ⟨false, none, false, false, false⟩
  else if openOk = false then ⟨false, none, false, false, false⟩
  else if startLogOk = false then ⟨false, none, true, false, false⟩
  else if chunk_size = 0 then ⟨false, none, true, false, false⟩
  else
    let total_chunks : Nat := ((sample_rate * duration).tdiv chunk_size).toNat
    let frames := captureChunks reads total_chunks
    if stopOk = false then ⟨false, none, true, false, false⟩
    else if closeOk = false then ⟨false, none, true, false, false⟩
    else if terminateOk = false then ⟨false, none, true, true, false⟩
    else if encodeOk = false then ⟨false, none, true, true, true⟩
    else ⟨true, some ⟨channels, FORMAT_SAMPLE_SIZE, sample_rate, frames⟩,
          true, true, true⟩

/-! ### `upload_to_s3` -/

/-- What a call to `upload_to_s3` did.  The whole body sits inside
`try/except Exception`, and the handler only logs, so the call never raises
to its caller. -/
structure UploadResult where
  /-- The `Key` passed to `client.upload_file`:
  the configured prefix, then `datetime.now().isoformat()` taken inside
  `upload_to_s3`, then a slash, then the file name. -/
  s3_key : String
  /-- The `Bucket` passed to `client.upload_file`. -/
  bucket : String
  /-- How many times `client.upload_file` was called. -/
  attempts : Nat
  /-- The local artifact after the call: `none` when `os.remove` deleted it,
  `some` of its unchanged content when the upload raised. -/
  localFile : Option WavFile
  /-- Whether the call raised to its caller. -/
  raised : Bool
deriving DecidableEq, Repr

/-- Shallow embedding of `upload_to_s3`.  `uploadNow` is the value of the
`datetime.now()` call in its first line; `uploadOk` models whether
`client.upload_file` returns or raises; `fileContent` is what is on disk at
`file_path` when the call starts. -/
def upload_to_s3 (uploadNow : PyDateTime) (uploadOk : Bool) (config : Config)
    (fileContent : WavFile) (file_name : String) : UploadResult :=
  let created_at := pyIsoformat uploadNow
  let s3_key := config.S3_OBJECT_KEY_PREF ++ created_at ++ "/" ++ file_name
  if uploadOk then
    { s3_key := s3_key, bucket := config.S3_BUCKET_NAME, attempts := 1,
      localFile := none, raised := false }
  else
    { s3_key := s3_key, bucket := config.S3_BUCKET_NAME, attempts := 1,
      localFile := some fileContent, raised := false }

/-! ### `record_and_upload_session` -/

/-- What one session did. -/
structure SessionResult where
  /-- `filename = f"recording_{timestamp}.wav"` with the timestamp from the
  `datetime.now()` call at the top of the session. -/
  filename : String
  /-- The tuple `get_audio_settings` returned, exactly as handed to
  `record_audio`. -/
  captureParams : Int × Int × Int × Option Int
  /-- The `record_audio` run. -/
  recorded : RecordResult
  /-- The `upload_to_s3` call, skipped (`none`) when recording failed. -/
  upload : Option UploadResult
deriving Repr

/-- Shallow embedding of `record_and_upload_session`.  `startNow` is the
`datetime.now()` read at the top of the function (the session start);
`uploadNow` is the later `datetime.now()` read inside `upload_to_s3`.  The
artifact handed to the upload is the container `record_audio` wrote (the
`getD` default is unreachable: a successful recording always wrote one). -/
def record_and_upload_session (startNow uploadNow : PyDateTime)
    (config : Config) (env : Env) (dev : PyAudioDevice)
    (makedirsOk openOk startLogOk stopOk closeOk terminateOk encodeOk
      uploadOk : Bool)
    (reads : Nat → Option Chunk) : SessionResult :=
  let timestamp := strftimeYmdHMS startNow
  let filename := "recording_" ++ timestamp ++ ".wav"
  let s := get_audio_settings env dev
  let r := record_audio RECORDING_DURATION s.1 s.2.1 s.2.2.1 s.2.2.2
    makedirsOk openOk startLogOk stopOk closeOk terminateOk encodeOk reads
  if r.success then
    { filename := filename, captureParams := s, recorded := r,
      upload := some (upload_to_s3 uploadNow uploadOk config
        (r.written.getD ⟨0, 0, 0, []⟩) filename) }
  else
    { filename := filename, captureParams := s, recorded := r, upload := none }

/-! ## Helper lemmas about the capture loop -/

/-- The append-only capture fold over any index list equals the accumulator
followed by the successful reads in order. -/
theorem captureChunks_foldl_eq (reads : Nat → Option Chunk) (l : List Nat)
    (acc : List Chunk) :
    l.foldl (fun acc i => match reads i with
      | some data => acc ++ [data]
      | none => acc) acc = acc ++ l.filterMap reads := by
  induction l generalizing acc with
  | nil => simp
  | cons a l ih =>
      cases h : reads a with
      | none => simp [List.foldl_cons, h, ih]
      | some d => simp [List.foldl_cons, h, ih]

/-- The capture loop keeps exactly the successful reads, in capture order. -/
theorem captureChunks_eq (reads : Nat → Option Chunk) (total : Nat) :
    captureChunks reads total = (List.range total).filterMap reads := by
  simpa [captureChunks] using captureChunks_foldl_eq reads (List.range total) []

/-- Successful and failed reads partition the attempted reads. -/
theorem filterMap_filter_length (reads : Nat → Option Chunk) (l : List Nat) :
    (l.filterMap reads).length +
      (l.filter (fun i => (reads i).isNone)).length = l.length := by
  induction l with
  | nil => simp
  | cons a l ih =>
      cases h : reads a with
      | none => simp [h, List.filter_cons, ih]; omega
      | some d => simp [h, List.filter_cons, ih]; omega

/-! ## Concrete inputs used by counterexamples and witnesses -/

/-- Session-start clock reading 2024-05-01 09:00:00. -/
def dtStartX : PyDateTime := ⟨2024, 5, 1, 9, 0, 0, 0⟩

/-- Upload-time clock reading one minute later, 2024-05-01 09:01:00 (the
upload happens after the 60-second recording, so the two readings differ). -/
def dtUploadX : PyDateTime := ⟨2024, 5, 1, 9, 1, 0, 0⟩

/-- A loaded configuration with object-key prefix `pre/`. -/
def cfgX : Config := ⟨"id", "secret", "bucket", "pre/"⟩

/-- Overrides giving a tiny capture: 2 Hz sample rate, 1 channel, 1-sample
chunks, hence 120 chunk reads for the 60-second session. -/
def envX : Env := ⟨"2", "1", "1"⟩

/-- No default input device; info fetch would raise; no reported rate. -/
def devX : PyAudioDevice := ⟨none, false, none⟩

/-- A run of the session on those inputs in which every library call
succeeds and every chunk read fails (so the artifact holds zero chunks). -/
def c1SessX : SessionResult :=
  record_and_upload_session dtStartX dtUploadX cfgX envX devX
    true true true true true true true true (fun _ => none)

/-- The upload record of that run. -/
def c1UploadX : UploadResult :=
  c1SessX.upload.getD ⟨"", "", 0, none, true⟩

/-! ## Claim theorems -/

/-- C1, counterexample: in the run `c1SessX` the session start is
09:00:00 but the upload-time clock reading is 09:01:00, and the key actually
passed to `client.upload_file` embeds 09:01:00 — not the key
`{prefix}{sessionStartISO8601}/{filename}` the claim requires, which embeds
09:00:00.  The two keys differ. -/
theorem c1_counterexample :
    c1SessX.upload.map UploadResult.s3_key =
      some "pre/2024-05-01T09:01:00/recording_20240501_090000.wav" ∧
    cfgX.S3_OBJECT_KEY_PREF ++ pyIsoformat dtStartX ++ "/" ++ c1SessX.filename =
      "pre/2024-05-01T09:00:00/recording_20240501_090000.wav" ∧
    (("pre/2024-05-01T09:01:00/recording_20240501_090000.wav" ==
      "pre/2024-05-01T09:00:00/recording_20240501_090000.wav") = false) :=
  ⟨by decide, by decide, by decide⟩

/-- C1, amended: whenever the session attempts an upload, the object key is
the configured prefix, then the ISO-8601 rendering of the `datetime.now()`
reading taken inside `upload_to_s3` at upload time (not the capture start),
then a slash, then the filename — whose embedded timestamp does come from
the capture-start reading. -/
theorem c1_amended (startNow uploadNow : PyDateTime) (config : Config)
    (env : Env) (dev : PyAudioDevice)
    (mk op sl st cl tm en up : Bool) (reads : Nat → Option Chunk)
    (u : UploadResult)
    (h : (record_and_upload_session startNow uploadNow config env dev
        mk op sl st cl tm en up reads).upload = some u) :
    u.s3_key = config.S3_OBJECT_KEY_PREF ++ pyIsoformat uploadNow ++ "/" ++
      ("recording_" ++ strftimeYmdHMS startNow ++ ".wav") := by
  simp only [record_and_upload_session] at h
  split at h
  · simp only [Option.some.injEq] at h
    subst h
    cases up <;> simp [upload_to_s3]
  · simp at h

/-- C1, witness for the amended theorem at the concrete run `c1SessX`. -/
theorem c1_amended_witness :
    c1SessX.upload = some c1UploadX ∧
    c1UploadX.s3_key = cfgX.S3_OBJECT_KEY_PREF ++ pyIsoformat dtUploadX ++ "/" ++
      ("recording_" ++ strftimeYmdHMS dtStartX ++ ".wav") :=
  ⟨by decide, c1_amended dtStartX dtUploadX cfgX envX devX
    true true true true true true true true (fun _ => none) c1UploadX (by decide)⟩

/-- C2: for a capture with resolved parameters `sr`, `cs` (nonzero), duration
`dur`, and per-read outcomes `reads`, a run in which every library call
succeeds returns success, and the encoded buffer is exactly the successful
reads in capture order: all `floor(sr/cs*dur)` of them when every read
succeeds, and `expectedChunkCount - N` of them when `N` reads fail. -/
theorem c2_capture_counts (sr ch cs dur : Nat) (di : Option Int)
    (hcs : 0 < cs) (reads : Nat → Option Chunk) :
    (record_audio (dur : Int) (sr : Int) (ch : Int) (cs : Int) di
        true true true true true true true reads).success = true ∧
    (record_audio (dur : Int) (sr : Int) (ch : Int) (cs : Int) di
        true true true true true true true reads).written =
      some ⟨(ch : Int), 2, (sr : Int),
        (List.range (sr * dur / cs)).filterMap reads⟩ ∧
    ((List.range (sr * dur / cs)).filterMap reads).length =
      sr * dur / cs -
        ((List.range (sr * dur / cs)).filter
          (fun i => (reads i).isNone)).length ∧
    ((List.range (sr * dur / cs)).filter
        (fun i => (reads i).isNone)).length ≤ sr * dur / cs := by
  have hcs0 : ((cs : Int) = 0) = False := by simp; omega
  have htot : ((sr : Int) * (dur : Int)).tdiv (cs : Int) =
      ((sr * dur / cs : Nat) : Int) := by norm_cast
  have hcount := filterMap_filter_length reads (List.range (sr * dur / cs))
  simp only [List.length_range] at hcount
  refine ⟨?_, ?_, ?_, ?_⟩
  · simp [record_audio, hcs0]
  · have h2 : (((sr : Int) * (dur : Int)) / (cs : Int)).toNat = sr * dur / cs := by
      norm_cast
    simp only [record_audio, if_neg, hcs0, Bool.true_eq_false, if_false]
    simp [htot, h2, captureChunks_eq, FORMAT_SAMPLE_SIZE]
  · omega
  · omega

/-- C2, witness: a concrete all-succeeding run at 2 Hz, 1-sample chunks,
60 seconds. -/
theorem c2_capture_counts_witness :
    (record_audio 60 2 1 1 none
        true true true true true true true (fun _ => some [7])).success = true :=
  (c2_capture_counts 2 1 1 60 none (by decide) (fun _ => some [7])).1

/-- C3: the failing input for the resource-release contract.  With
`chunk_size = 0` (reachable by setting `AUDIO_CHUNK_SIZE=0`, which
`_int_from_env` passes through) and a stream that opens, the expression
`int(sample_rate / chunk_size * duration)` raises `ZeroDivisionError` after
`p.open` and before the teardown calls; `record_audio` returns `False` with
the stream opened but never closed and the device handle never
terminated. -/
theorem c3_unreleased_stream :
    (record_audio 60 44100 1 0 none true true true true true true true
        (fun _ => none)).success = false ∧
    (record_audio 60 44100 1 0 none true true true true true true true
        (fun _ => none)).streamOpened = true ∧
    (record_audio 60 44100 1 0 none true true true true true true true
        (fun _ => none)).streamClosed = false ∧
    (record_audio 60 44100 1 0 none true true true true true true true
        (fun _ => none)).deviceTerminated = false := by
  decide

/-- C5: one call to `upload_to_s3` makes exactly one upload attempt, never
raises to its caller (so the scheduler loop treats the iteration as
completed), deletes the local artifact exactly when the upload succeeded,
and leaves it on disk with unchanged content when the upload failed. -/
theorem c5_upload_retention (uploadNow : PyDateTime) (uploadOk : Bool)
    (config : Config) (content : WavFile) (name : String) :
    (upload_to_s3 uploadNow uploadOk config content name).localFile =
        (if uploadOk then none else some content) ∧
      (upload_to_s3 uploadNow uploadOk config content name).attempts = 1 ∧
      (upload_to_s3 uploadNow uploadOk config content name).raised = false := by
  cases uploadOk <;> simp [upload_to_s3]

/-- C4, counterexample: for the window `[9, 18]` the claim calls every time
whose hour component is 18 InWindow, naming 18:30 itself; the code compares
the full clock time against 18:00 inclusive, so 18:30 is OutOfWindow. -/
theorem c4_counterexample :
    is_recording_time (9, 18) ⟨18, 30, 0, 0⟩ = false := by decide

/-- C4, amended: the membership test compares the full current time (hour,
minute, second, microsecond), not the time truncated to hour granularity,
against the inclusive bounds startHour:00 and endHour:00 with each hour
independently clamped to [0, 23]: the probe is InWindow exactly when its
hour is at least the clamped start hour and either below the clamped end
hour or exactly the clamped end hour with zero minutes, seconds and
microseconds. -/
theorem c4_amended (rh : Int × Int) (now : PyTime) :
    is_recording_time rh now = true ↔
      ((min (max rh.1 0) 23).toNat ≤ now.hour ∧
        (now.hour < (min (max rh.2 0) 23).toNat ∨
          (now.hour = (min (max rh.2 0) 23).toNat ∧ now.minute = 0 ∧
            now.second = 0 ∧ now.microsecond = 0))) := by
  simp only [is_recording_time, timeLe, Bool.and_eq_true, decide_eq_true_eq]
  omega

/-- C4, witness for the amended theorem: 10:30 is inside the `[9, 18]`
window. -/
theorem c4_amended_witness :
    is_recording_time (9, 18) ⟨10, 30, 0, 0⟩ = true :=
  (c4_amended (9, 18) ⟨10, 30, 0, 0⟩).mpr (by decide)

/-- C7: probes of the `[9, 18]` window at its boundaries follow the code:
08:59 is OutOfWindow, 09:00 and 18:00 are InWindow, 18:01 is OutOfWindow. -/
theorem c7_window_probes :
    is_recording_time (9, 18) ⟨8, 59, 0, 0⟩ = false ∧
    is_recording_time (9, 18) ⟨9, 0, 0, 0⟩ = true ∧
    is_recording_time (9, 18) ⟨18, 0, 0, 0⟩ = true ∧
    is_recording_time (9, 18) ⟨18, 1, 0, 0⟩ = false := by decide

/-- C9: the failing input for the configuration contract.  With
`AWS_ACCESS_KEY_ID` unset (and everything else set), `get_config` reaches
the debug print `print("Value: " + env_var + value)` with `value = None`,
which raises `TypeError` before the `if value is None` check; the process
terminates through the uncaught exception — a non-zero exit before any
upload attempt, but without the designed `log_message`/`sys.exit(1)` path
ever running.  A fully-set environment loads normally. -/
theorem c9_crash_before_check :
    get_config (fun v => if v = "AWS_ACCESS_KEY_ID" then none else some "set") =
      ConfigOutcome.typeErrorCrash "AWS_ACCESS_KEY_ID" ∧
    get_config (fun _ => some "set") = ConfigOutcome.ok ⟨"set", "set", "set", "set"⟩ :=
  ⟨rfl, rfl⟩

/-- C6: the precedence law of parameter resolution.  A syntactically valid
explicit override wins (for the sample rate: the stripped string passes
`isdigit()`; for channels and chunk size: nonempty and parseable by
`int()`); otherwise the sample rate falls back to the identified default
input device and its reported rate, then to the hardcoded 44100 Hz, while
channels and chunk size fall back to 1 and 2048; device identification
failure only nulls the returned device handle. -/
theorem c6_precedence (env : Env) (dev : PyAudioDevice) :
    (pyIsdigit (pyStrip env.AUDIO_SAMPLE_RATE) = true →
      (get_audio_settings env dev).1 =
        (digitsToNat (pyStrip env.AUDIO_SAMPLE_RATE).data : Int)) ∧
    (pyIsdigit (pyStrip env.AUDIO_SAMPLE_RATE) = false → dev.infoOk = true →
      ∀ i : Int, dev.defaultInput = some i →
        (get_audio_settings env dev).1 =
          dev.reportedRate.getD DEFAULT_SAMPLE_RATE) ∧
    (pyIsdigit (pyStrip env.AUDIO_SAMPLE_RATE) = false →
      dev.defaultInput = none →
      (get_audio_settings env dev).1 = DEFAULT_SAMPLE_RATE) ∧
    (pyIsdigit (pyStrip env.AUDIO_SAMPLE_RATE) = false → dev.infoOk = false →
      (get_audio_settings env dev).1 = DEFAULT_SAMPLE_RATE) ∧
    (env.AUDIO_CHANNELS.data.isEmpty = false →
      ∀ n : Int, pyInt env.AUDIO_CHANNELS = some n →
        (get_audio_settings env dev).2.1 = n) ∧
    (env.AUDIO_CHANNELS.data.isEmpty = true ∨ pyInt env.AUDIO_CHANNELS = none →
      (get_audio_settings env dev).2.1 = DEFAULT_CHANNELS) ∧
    (env.AUDIO_CHUNK_SIZE.data.isEmpty = false →
      ∀ n : Int, pyInt env.AUDIO_CHUNK_SIZE = some n →
        (get_audio_settings env dev).2.2.1 = n) ∧
    (env.AUDIO_CHUNK_SIZE.data.isEmpty = true ∨ pyInt env.AUDIO_CHUNK_SIZE = none →
      (get_audio_settings env dev).2.2.1 = DEFAULT_CHUNK_SIZE) ∧
    (get_audio_settings env dev).2.2.2 = dev.defaultInput := by
  refine ⟨?_, ?_, ?_, ?_, ?_, ?_, ?_, ?_, ?_⟩
  · intro h
    simp [get_audio_settings, h]
  · intro h hinfo i hi
    simp [get_audio_settings, resolve_input_device_index, h, hinfo, hi]
  · intro h hd
    simp [get_audio_settings, resolve_input_device_index, h, hd]
  · intro h hinfo
    cases hd : dev.defaultInput <;>
      simp [get_audio_settings, resolve_input_device_index, h, hinfo, hd]
  · intro h n hn
    simp [get_audio_settings, _int_from_env, h, hn]
  · intro h
    rcases h with h | h <;> simp [get_audio_settings, _int_from_env, h]
  · intro h n hn
    simp [get_audio_settings, _int_from_env, h, hn]
  · intro h
    rcases h with h | h <;> simp [get_audio_settings, _int_from_env, h]
  · simp [get_audio_settings, resolve_input_device_index]

/-- C6, witness: a digit override wins; with no override the identified
device rate wins; with no device the hardcoded defaults apply while the
channel and chunk overrides are honored. -/
theorem c6_precedence_witness :
    (get_audio_settings ⟨"48000", "", ""⟩ ⟨some 3, true, some 96000⟩).1 = 48000 ∧
    (get_audio_settings ⟨"", "", ""⟩ ⟨some 3, true, some 96000⟩).1 = 96000 ∧
    (get_audio_settings ⟨"", "6", "512"⟩ ⟨none, true, none⟩).1 = 44100 ∧
    (get_audio_settings ⟨"", "6", "512"⟩ ⟨none, true, none⟩).2.1 = 6 ∧
    (get_audio_settings ⟨"", "6", "512"⟩ ⟨none, true, none⟩).2.2.1 = 512 ∧
    (get_audio_settings ⟨"", "6", "512"⟩ ⟨none, true, none⟩).2.2.2 = none := by
  obtain ⟨h1, h2, h3, h4, h5, h6, h7, h8, h9⟩ :=
    c6_precedence ⟨"48000", "", ""⟩ ⟨some 3, true, some 96000⟩
  obtain ⟨g1, g2, g3, g4, g5, g6, g7, g8, g9⟩ :=
    c6_precedence ⟨"", "", ""⟩ ⟨some 3, true, some 96000⟩
  obtain ⟨f1, f2, f3, f4, f5, f6, f7, f8, f9⟩ :=
    c6_precedence ⟨"", "6", "512"⟩ ⟨none, true, none⟩
  refine ⟨?_, ?_, ?_, ?_, ?_, ?_⟩
  · rw [h1 (by decide)]; decide
  · rw [g2 (by decide) rfl 3 rfl]; decide
  · rw [f3 (by decide) rfl]; decide
  · rw [f5 (by decide) 6 (by decide)]
  · rw [f7 (by decide) 512 (by decide)]
  · rw [f9]

/-- C8: whenever `record_audio` writes a container, its header holds the
resolved session parameters — channel count, 2-byte sample width from the
fixed 16-bit format, frame rate — independent of the captured buffer. -/
theorem c8_header_fields (dur sr ch cs : Int) (di : Option Int)
    (mk op sl st cl tm en : Bool) (reads : Nat → Option Chunk) (wf : WavFile)
    (h : (record_audio dur sr ch cs di mk op sl st cl tm en reads).written =
      some wf) :
    wf.nchannels = ch ∧ wf.sampwidth = 2 ∧ wf.framerate = sr := by
  unfold record_audio at h
  split at h
  · simp at h
  split at h
  · simp at h
  split at h
  · simp at h
  split at h
  · simp at h
  split at h
  · simp at h
  split at h
  · simp at h
  split at h
  · simp at h
  split at h
  · simp at h
  · simp only [Option.some.injEq] at h
    subst h
    simp [FORMAT_SAMPLE_SIZE]

/-- C8, witness: a run that captures zero chunks still writes the resolved
header. -/
theorem c8_header_fields_witness :
    ((⟨3, 2, 5, []⟩ : WavFile).nchannels = 3 ∧
      (⟨3, 2, 5, []⟩ : WavFile).sampwidth = 2 ∧
      (⟨3, 2, 5, []⟩ : WavFile).framerate = 5) :=
  c8_header_fields 1 5 3 1 none true true true true true true true
    (fun _ => none) ⟨3, 2, 5, []⟩ (by decide)

/-- C10: the override validity test differs by parameter.  A sample-rate
override that fails `isdigit()` (signed, decorated, or otherwise) is
silently ignored — resolution behaves as if the variable were unset — while
channel and chunk overrides are honored for any `int()`-parseable string,
zero and negatives included, and the resolved triple is handed to
`record_audio` unchanged. -/
theorem c10_override_validity (env : Env) (dev : PyAudioDevice) :
    (pyIsdigit (pyStrip env.AUDIO_SAMPLE_RATE) = false →
      (get_audio_settings env dev).1 =
        (get_audio_settings ⟨"", env.AUDIO_CHANNELS, env.AUDIO_CHUNK_SIZE⟩ dev).1) ∧
    (env.AUDIO_CHANNELS.data.isEmpty = false →
      ∀ n : Int, pyInt env.AUDIO_CHANNELS = some n →
        (get_audio_settings env dev).2.1 = n) ∧
    (env.AUDIO_CHUNK_SIZE.data.isEmpty = false →
      ∀ n : Int, pyInt env.AUDIO_CHUNK_SIZE = some n →
        (get_audio_settings env dev).2.2.1 = n) ∧
    (∀ (startNow uploadNow : PyDateTime) (config : Config)
        (mk op sl st cl tm en up : Bool) (reads : Nat → Option Chunk),
      (record_and_upload_session startNow uploadNow config env dev
          mk op sl st cl tm en up reads).captureParams =
        get_audio_settings env dev) := by
  refine ⟨?_, ?_, ?_, ?_⟩
  · intro h
    have he : pyIsdigit (pyStrip "") = false := by decide
    simp [get_audio_settings, h, he]
  · intro h n hn
    simp [get_audio_settings, _int_from_env, h, hn]
  · intro h n hn
    simp [get_audio_settings, _int_from_env, h, hn]
  · intro startNow uploadNow config mk op sl st cl tm en up reads
    simp only [record_and_upload_session]
    split <;> rfl

/-- C10, witness: a signed sample-rate override ` -44100 ` is ignored (the
hardcoded 44100 results), while `AUDIO_CHANNELS=-3` and `AUDIO_CHUNK_SIZE=0`
are honored verbatim. -/
theorem c10_override_validity_witness :
    (get_audio_settings ⟨" -44100 ", "-3", "0"⟩ ⟨none, false, none⟩).1 = 44100 ∧
    (get_audio_settings ⟨" -44100 ", "-3", "0"⟩ ⟨none, false, none⟩).2.1 = -3 ∧
    (get_audio_settings ⟨" -44100 ", "-3", "0"⟩ ⟨none, false, none⟩).2.2.1 = 0 := by
  obtain ⟨h1, h2, h3, h4⟩ :=
    c10_override_validity ⟨" -44100 ", "-3", "0"⟩ ⟨none, false, none⟩
  refine ⟨?_, ?_, ?_⟩
  · rw [h1 (by decide)]; decide
  · exact h2 (by decide) (-3) (by decide)
  · exact h3 (by decide) 0 (by decide)
